import Mathlib

/-!
Shallow embedding of the two calendar pages of the `alpha-laser` repository:

* `src/alpha/static/js/pages/calendar_django.init.js`  (namespace `CalDjango`)
* `src/alpha/static/js/pages/calendar_rooms.init.js`   (namespace `CalRooms`)

Both files wire FullCalendar widgets to a remote Django appointments API.
The embedding models:

* the JSON bodies and URLs of every `fetch` the handlers issue (`Request`),
* the observable browser effects of each handler (`Effect`),
* the pool of calendar instances (`Pool`, an association list mirroring the
  JS object `calendars`, whose keys are inserted by `calendars[id] = cal`),
* the response-processing continuations of each handler, as pure functions
  from a `FetchOutcome` (resolved JSON with a `success` flag, or a rejected
  fetch / JSON-parse error) and the current pool to the new pool plus the
  emitted effects, and
* the `getCookie` helper together with a model of the ECMAScript builtin
  `decodeURIComponent` (percent-decoding followed by strict UTF-8 decoding;
  a malformed escape sequence throws `URIError`, modelled as `none`).

A calendar instance is abstracted to the two observables the claims speak
about: the date it displays (`displayedDate`, a day number as `Int`) and how
many times `refetchEvents` has been invoked on it (`refetchCount`).
-/

/-- A JSON value as it appears in the request bodies built by the handlers:
every field is either a string (ISO datetime, note text, room id) or the
JavaScript `null` (from `info.event.end ? ... : null`). -/
inductive JVal
  | jstr (s : String)
  | jnull
  deriving DecidableEq, Repr

/-- One HTTP request issued by `fetch`: the URL, the method, and the JSON
body as the ordered list of fields passed to `JSON.stringify`. -/
structure Request where
  url : String
  method : String
  body : List (String × JVal)
  deriving DecidableEq, Repr

/-- Observable browser effects a handler can emit, in program order:
`alert`, `console.log`, `console.error` (first literal argument),
`info.revert()`, `eventModal.hide()`, `eventModal.show()`, and a
`window.location.href` assignment. -/
inductive Effect
  | alert (msg : String)
  | logMsg (msg : String)
  | logErr (msg : String)
  | revert
  | hideModal
  | showModal
  | navigate (url : String)
  deriving DecidableEq, Repr

/-- Outcome of a `fetch(...).then(r => r.json()).then(data => ...)` chain:
either the parsed JSON carried a `success` boolean and a `message` string,
or the fetch / JSON parse rejected and control went to `.catch`. -/
inductive FetchOutcome
  | ok (success : Bool) (message : String)
  | err
  deriving DecidableEq, Repr

/-- The two observables of one FullCalendar instance that the claims are
about: the displayed date (`gotoDate` / `initialDate`, as a day number) and
the number of `refetchEvents` calls received. -/
structure CalendarState where
  displayedDate : Int
  refetchCount : Nat
  deriving DecidableEq, Repr

/-- The JS object `calendars`, as an association list in insertion order
(string keys of a JS object preserve insertion order; `Object.values`
enumerates them in that order). -/
abbrev Pool := List (String × CalendarState)

/-- JS `calendars[k] = v`: overwrite in place when the key exists, append
otherwise. -/
def assocSet (pool : Pool) (k : String) (v : CalendarState) : Pool :=
  if pool.any (fun p => p.1 = k) then
    pool.map (fun p => if p.1 = k then (k, v) else p)
  else
    pool ++ [(k, v)]

/-- One `refetchEvents` call on a single instance. -/
def bumpRefetch (c : CalendarState) : CalendarState :=
  { c with refetchCount := c.refetchCount + 1 }

/-- The fan-out `Object.values(calendars).forEach(cal => cal.refetchEvents())`
that both files use after successful mutations and in their timers. -/
def refetchAllPool (pool : Pool) : Pool :=
  pool.map (fun p => (p.1, bumpRefetch p.2))

/-- The dates currently displayed by the pool's instances, in pool order. -/
def displayedDates (pool : Pool) : List Int :=
  pool.map (fun p => p.2.displayedDate)

/-- The update endpoint both files hit from drag, resize and the modal edit:
backtick template `/appointments/api/appointments/ id /update/`. -/
def updateUrl (id : String) : String :=
  "/appointments/api/appointments/" ++ id ++ "/update/"

/-- The delete endpoint both files hit from the modal's delete button. -/
def deleteUrl (id : String) : String :=
  "/appointments/api/appointments/" ++ id ++ "/delete/"

namespace CalDjango

/-- One entry of the `calendarConfigs` array of `calendar_django.init.js`. -/
structure CalendarConfig where
  id : String
  elementId : String
  title : String
  dateOffset : Int
  deriving DecidableEq, Repr

/-- The four hard-coded configurations (Today, Tomorrow, Day After Tomorrow,
In 3 Days). -/
def calendarConfigs : List CalendarConfig :=
  [⟨"calendar1", "calendar1", "Today", 0⟩,
   ⟨"calendar2", "calendar2", "Tomorrow", 1⟩,
   ⟨"calendar3", "calendar3", "Day After Tomorrow", 2⟩,
   ⟨"calendar4", "calendar4", "In 3 Days", 3⟩]

/-- Effect of `createCalendar(config)` on the `calendars` object: when the
DOM element `config.elementId` is absent the function returns early and
stores nothing; otherwise a fresh instance whose initial date is
`today + config.dateOffset` is stored under `config.id`.  `domHas` models
which element ids `document.getElementById` finds. -/
def createCalendar (domHas : String → Bool) (today : Int) (pool : Pool)
    (config : CalendarConfig) : Pool :=
  if domHas config.elementId then
    assocSet pool config.id ⟨today + config.dateOffset, 0⟩
  else
    pool

/-- The initialisation loop `calendarConfigs.forEach(config =>
createCalendar(config))`, starting from the empty `calendars` object. -/
def initCalendars (domHas : String → Bool) (today : Int) : Pool :=
  calendarConfigs.foldl (createCalendar domHas today) []

/-- URL of the event-source fetch of `calendar_django.init.js`:
`'/appointments/api/appointments/?start=' + info.startStr + '&end=' + info.endStr`. -/
def eventsUrl (startStr endStr : String) : String :=
  "/appointments/api/appointments/?start=" ++ startStr ++ "&end=" ++ endStr

/-- The event-source request: a plain `fetch(url)` is a GET with no body. -/
def eventsRequest (startStr endStr : String) : Request :=
  ⟨eventsUrl startStr endStr, "GET", []⟩

/-- Request issued by the `eventDrop` handler: POST to the update endpoint
with body `{start: newStart}`. -/
def eventDropRequest (appointmentId newStart : String) : Request :=
  ⟨updateUrl appointmentId, "POST", [("start", .jstr newStart)]⟩

/-- Response processing of `eventDrop`: on `success` log and refetch every
calendar; on `success:false` alert with the server message and revert; on a
rejected fetch log the error, alert and revert. -/
def eventDropResponse (o : FetchOutcome) (pool : Pool) : Pool × List Effect :=
  match o with
  | .ok true _ => (refetchAllPool pool, [.logMsg "Appointment moved successfully"])
  | .ok false msg => (pool, [.alert ("Error updating appointment: " ++ msg), .revert])
  | .err => (pool, [.logErr "Error:", .alert "Error updating appointment", .revert])

/-- Request issued by the `eventResize` handler: POST to the update endpoint
with body `{start: newStart, end: newEnd}` where `newEnd` is `null` when the
event has no end. -/
def eventResizeRequest (appointmentId newStart : String) (newEnd : Option String) :
    Request :=
  ⟨updateUrl appointmentId, "POST",
   [("start", .jstr newStart), ("end", match newEnd with | some e => .jstr e | none => .jnull)]⟩

/-- Response processing of `eventResize`: on `success` it only logs — it
does NOT refetch any calendar; on `success:false` alert and revert; on a
rejected fetch log, alert and revert. -/
def eventResizeResponse (o : FetchOutcome) (pool : Pool) : Pool × List Effect :=
  match o with
  | .ok true _ => (pool, [.logMsg "Appointment duration updated"])
  | .ok false msg => (pool, [.alert ("Error updating appointment: " ++ msg), .revert])
  | .err => (pool, [.logErr "Error:", .alert "Error updating appointment", .revert])

/-- The data stored in `window.clickedInfo` by the `dateClick` handler. -/
structure ClickInfo where
  date : String
  calendarId : String
  deriving DecidableEq, Repr

/-- The form-submit handler of `calendar_django.init.js`.  Arguments mirror
the state it reads: `currentEventId` is `currentEvent && currentEvent.id`
(`none` when `currentEvent` is null), `appointmentId` the value of the
`eventid` input (the empty string is falsy), `notes` the notes field and
`clickedInfo` the stored `window.clickedInfo`.  It returns the request the
branch issues (`none` when no fetch happens) and the effects emitted
synchronously before any response arrives: the create branch only alerts
that the full creation form must be used and hides the modal. -/
def eventFormSubmit (currentEventId : Option String) (appointmentId notes : String)
    (clickedInfo : Option ClickInfo) : Option Request × List Effect :=
  if currentEventId.isSome ∧ appointmentId ≠ "" then
    (some ⟨updateUrl appointmentId, "POST", [("notes", .jstr notes)]⟩, [])
  else if clickedInfo.isSome then
    (none,
     [.alert "To create appointments, please use the full appointment creation form.",
      .hideModal])
  else
    (none, [])

/-- Response processing of the update branch of the form-submit handler:
on `success` refetch every calendar, hide the modal and alert; on
`success:false` only alert with the server message; on a rejected fetch log
and alert. -/
def eventFormSubmitResponse (o : FetchOutcome) (pool : Pool) : Pool × List Effect :=
  match o with
  | .ok true _ =>
    (refetchAllPool pool, [.hideModal, .alert "Appointment updated successfully!"])
  | .ok false msg => (pool, [.alert ("Error: " ++ msg)])
  | .err => (pool, [.logErr "Error:", .alert "Error updating appointment"])

/-- Request issued by the delete-button handler once the user confirmed:
DELETE to the delete endpoint, no body. -/
def deleteRequest (appointmentId : String) : Request :=
  ⟨deleteUrl appointmentId, "DELETE", []⟩

/-- The delete-button click handler issues its request only when an event is
selected and `confirm` returned true. -/
def deleteClick (currentEventId : Option String) (confirmed : Bool) : Option Request :=
  match currentEventId with
  | some id => if confirmed then some (deleteRequest id) else none
  | none => none

/-- Response processing of the delete request: on `success` refetch every
calendar, hide the modal and alert; on `success:false` only alert with the
server message; on a rejected fetch log and alert.  No `revert` exists here
(the click changed nothing visually). -/
def deleteResponse (o : FetchOutcome) (pool : Pool) : Pool × List Effect :=
  match o with
  | .ok true _ =>
    (refetchAllPool pool, [.hideModal, .alert "Appointment deleted successfully!"])
  | .ok false msg => (pool, [.alert ("Error: " ++ msg)])
  | .err => (pool, [.logErr "Error:", .alert "Error deleting appointment"])

/-- JS `calendars[id].gotoDate(d)`, total on the pool (the JS would throw on
a missing key; no claim exercises that path). -/
def gotoDatePool (pool : Pool) (id : String) (d : Int) : Pool :=
  pool.map (fun p => if p.1 = id then (p.1, { p.2 with displayedDate := d }) else p)

/-- The `Sync to Today` button: `calendarConfigs.forEach((config, index) =>
calendars[config.id].gotoDate(today + index))` — consecutive days starting
from today, one per configuration. -/
def syncToToday (today : Int) (pool : Pool) : Pool :=
  calendarConfigs.enum.foldl (fun p ic => gotoDatePool p ic.2.id (today + ic.1)) pool

/-- The `Refresh All` button: refetch every calendar. -/
def refreshAllClick (pool : Pool) : Pool :=
  refetchAllPool pool

end CalDjango

namespace CalRooms

/-- One entry of `roomsData`, scraped from the `[data-room-id]` elements of
the template. -/
structure RoomConfig where
  id : String
  name : String
  elementId : String
  deriving DecidableEq, Repr

/-- Effect of `createRoomCalendar(roomConfig)` on the `calendars` object:
nothing when the DOM element is absent, otherwise a fresh instance showing
`currentDate` is stored under the room's id. -/
def createRoomCalendar (domHas : String → Bool) (currentDate : Int) (pool : Pool)
    (config : RoomConfig) : Pool :=
  if domHas config.elementId then
    assocSet pool config.id ⟨currentDate, 0⟩
  else
    pool

/-- The initialisation loop `roomsData.forEach(roomConfig =>
createRoomCalendar(roomConfig))`. -/
def initRoomCalendars (domHas : String → Bool) (currentDate : Int)
    (rooms : List RoomConfig) : Pool :=
  rooms.foldl (createRoomCalendar domHas currentDate) []

/-- URL of the event-source fetch of `calendar_rooms.init.js`:
`'/appointments/api/room-appointments/?start=' + info.startStr + '&end=' +
info.endStr + '&room_id=' + roomConfig.id`. -/
def eventsUrl (startStr endStr roomId : String) : String :=
  "/appointments/api/room-appointments/?start=" ++ startStr ++ "&end=" ++ endStr ++
    "&room_id=" ++ roomId

/-- The event-source request of a room widget. -/
def eventsRequest (startStr endStr roomId : String) : Request :=
  ⟨eventsUrl startStr endStr roomId, "GET", []⟩

/-- The `dateClick` handler of a room calendar does not call the API at all:
it navigates the page to the appointment creation form with the room and the
clicked datetime as query parameters. -/
def dateClick (roomId clickedDateTime : String) : List Effect :=
  [.navigate ("/appointments/create/?room=" ++ roomId ++ "&start=" ++ clickedDateTime)]

/-- Request issued by the rooms `eventDrop` handler: POST to the update
endpoint with body `{start: newStart, room_id: roomConfig.id}`. -/
def eventDropRequest (appointmentId newStart roomId : String) : Request :=
  ⟨updateUrl appointmentId, "POST",
   [("start", .jstr newStart), ("room_id", .jstr roomId)]⟩

/-- Response processing of the rooms `eventDrop`: on `success` log and
refetch every calendar; on `success:false` alert (Greek) and revert; on a
rejected fetch log, alert and revert. -/
def eventDropResponse (o : FetchOutcome) (pool : Pool) : Pool × List Effect :=
  match o with
  | .ok true _ => (refetchAllPool pool, [.logMsg "Appointment moved successfully"])
  | .ok false msg => (pool, [.alert ("Σφάλμα: " ++ msg), .revert])
  | .err => (pool, [.logErr "Error:", .alert "Σφάλμα κατά την ενημέρωση", .revert])

/-- Request issued by the rooms `eventResize` handler: POST to the update
endpoint with body `{start: newStart, end: newEnd}`. -/
def eventResizeRequest (appointmentId newStart : String) (newEnd : Option String) :
    Request :=
  ⟨updateUrl appointmentId, "POST",
   [("start", .jstr newStart), ("end", match newEnd with | some e => .jstr e | none => .jnull)]⟩

/-- Response processing of the rooms `eventResize`: on `success` nothing
happens (the handler only checks `!data.success`); on `success:false` alert
and revert; on a rejected fetch log, alert and revert. -/
def eventResizeResponse (o : FetchOutcome) (pool : Pool) : Pool × List Effect :=
  match o with
  | .ok true _ => (pool, [])
  | .ok false msg => (pool, [.alert ("Σφάλμα: " ++ msg), .revert])
  | .err => (pool, [.logErr "Error:", .alert "Σφάλμα κατά την ενημέρωση", .revert])

/-- The rooms delete-button handler, guarded by a selected event and the
confirmation dialog, issues the same DELETE request as the django page. -/
def deleteClick (currentEventId : Option String) (confirmed : Bool) : Option Request :=
  match currentEventId with
  | some id => if confirmed then some (CalDjango.deleteRequest id) else none
  | none => none

/-- Response processing of the rooms delete: on `success` refetch every
calendar, hide the modal and alert; on `success:false` only alert with the
server message; on a rejected fetch log and alert. -/
def deleteResponse (o : FetchOutcome) (pool : Pool) : Pool × List Effect :=
  match o with
  | .ok true _ =>
    (refetchAllPool pool, [.hideModal, .alert "Το ραντεβού διαγράφηκε επιτυχώς!"])
  | .ok false msg => (pool, [.alert ("Σφάλμα: " ++ msg)])
  | .err => (pool, [.logErr "Error:", .alert "Σφάλμα κατά τη διαγραφή"])

/-- `gotoDate(currentDate)` applied to every instance, the body of the
prev / next / today handlers. -/
def gotoAll (d : Int) (pool : Pool) : Pool :=
  pool.map (fun p => (p.1, { p.2 with displayedDate := d }))

/-- The `prev-day` button: decrement `currentDate`, then `gotoDate` on every
calendar.  Returns the new `currentDate` and the new pool. -/
def prevDay (currentDate : Int) (pool : Pool) : Int × Pool :=
  (currentDate - 1, gotoAll (currentDate - 1) pool)

/-- The `next-day` button: increment `currentDate`, then `gotoDate` on every
calendar. -/
def nextDay (currentDate : Int) (pool : Pool) : Int × Pool :=
  (currentDate + 1, gotoAll (currentDate + 1) pool)

/-- The `today-btn` button: reset `currentDate` to now, then `gotoDate` on
every calendar. -/
def todayBtn (todayNow : Int) (pool : Pool) : Int × Pool :=
  (todayNow, gotoAll todayNow pool)

end CalRooms

/-- Interval of the `setInterval` auto-refresh of both files: 300000 ms
(5 minutes). -/
def autoRefreshIntervalMs : Nat := 300000

/-- Body of the `setInterval` callback of both files: refetch every
calendar in the pool. -/
def autoRefreshTick (pool : Pool) : Pool :=
  refetchAllPool pool

/-- Hex digit value, as used by the ECMAScript URI decoding algorithm
(48, 87 and 55 are the code of `0`, and the codes of `a` and `A` minus 10). -/
def hexDigit (c : Char) : Option Nat :=
  if c.isDigit then some (c.toNat - 48)
  else if 'a' ≤ c ∧ c ≤ 'f' then some (c.toNat - 87)
  else if 'A' ≤ c ∧ c ≤ 'F' then some (c.toNat - 55)
  else none

/-- A token of a URI-encoded string: either a literal character or one
`%XY` escape carrying the byte it denotes. -/
inductive UriTok
  | raw (c : Char)
  | esc (b : Nat)
  deriving DecidableEq, Repr

/-- First phase of the ECMAScript `Decode` algorithm (ECMA-262 §19.2.6.5,
with the empty reserved set used by `decodeURIComponent`): scan the string,
turning each `%` followed by two hex digits into the escaped byte; a `%` not
followed by two hex digits throws `URIError` (`none`). -/
def uriTokenize : List Char → Option (List UriTok)
  | [] => some []
  | '%' :: h :: l :: rest =>
    match hexDigit h, hexDigit l with
    | some a, some b => (uriTokenize rest).map (UriTok.esc (16 * a + b) :: ·)
    | _, _ => none
  | '%' :: _ => none
  | c :: rest => (uriTokenize rest).map (UriTok.raw c :: ·)

/-- A UTF-8 continuation byte, `0x80 ≤ b ≤ 0xBF`. -/
def contB (b : Nat) : Bool :=
  0x80 ≤ b ∧ b < 0xC0

/-- Second phase of the ECMAScript `Decode` algorithm: literal characters
pass through; an escaped byte below `0x80` decodes to that character; any
other escaped byte must start a valid multi-byte UTF-8 sequence whose
continuation bytes are themselves escapes, decoding to a Unicode scalar
value (overlong encodings, surrogates and values above `0x10FFFF` throw
`URIError`, modelled as `none`). -/
def uriAssemble : List UriTok → Option (List Char)
  | [] => some []
  | .raw c :: rest => (uriAssemble rest).map (c :: ·)
  | .esc b0 :: rest =>
    if b0 < 0x80 then (uriAssemble rest).map (Char.ofNat b0 :: ·)
    else if b0 < 0xC2 then none
    else if b0 < 0xE0 then
      match rest with
      | .esc b1 :: rest1 =>
        if contB b1 then
          (uriAssemble rest1).map (Char.ofNat ((b0 - 0xC0) * 0x40 + (b1 - 0x80)) :: ·)
        else none
      | _ => none
    else if b0 < 0xF0 then
      match rest with
      | .esc b1 :: .esc b2 :: rest2 =>
        if contB b1 ∧ contB b2 then
          let v := (b0 - 0xE0) * 0x1000 + (b1 - 0x80) * 0x40 + (b2 - 0x80)
          if 0x800 ≤ v ∧ ¬(0xD800 ≤ v ∧ v < 0xE000) then
            (uriAssemble rest2).map (Char.ofNat v :: ·)
          else none
        else none
      | _ => none
    else if b0 < 0xF5 then
      match rest with
      | .esc b1 :: .esc b2 :: .esc b3 :: rest3 =>
        if contB b1 ∧ contB b2 ∧ contB b3 then
          let v := (b0 - 0xF0) * 0x40000 + (b1 - 0x80) * 0x1000 +
            (b2 - 0x80) * 0x40 + (b3 - 0x80)
          if 0x10000 ≤ v ∧ v ≤ 0x10FFFF then
            (uriAssemble rest3).map (Char.ofNat v :: ·)
          else none
        else none
      | _ => none
    else none

/-- Model of the ECMAScript builtin `decodeURIComponent`: `none` models a
thrown `URIError`. -/
def decodeURIComponent (s : String) : Option String :=
  match uriTokenize s.data with
  | none => none
  | some toks => (uriAssemble toks).map String.mk

/-- JS `String.prototype.split` with a one-character separator, on the
character list of the string. -/
def splitOnCh (sep : Char) : List Char → List (List Char)
  | [] => [[]]
  | c :: rest =>
    if c = sep then [] :: splitOnCh sep rest
    else
      match splitOnCh sep rest with
      | [] => [[c]]
      | g :: gs => (c :: g) :: gs

/-- JS `String.prototype.trim`, restricted to the ASCII whitespace that
`Char.isWhitespace` covers (JS also strips some exotic Unicode whitespace;
cookie strings contain none). -/
def trimChars (l : List Char) : List Char :=
  ((l.dropWhile Char.isWhitespace).reverse.dropWhile Char.isWhitespace).reverse

/-- The loop body of `getCookie`: scan the `;`-separated entries in order;
on the first entry whose trimmed text (`cookies[i].trim()`) starts with
`name + '='`, return the `decodeURIComponent` of the rest of that entry
(`Except.error ()` models the `URIError` the builtin can throw); otherwise
keep scanning (the JS `break` makes the first match win). -/
def findCookie (name : List Char) : List (List Char) → Except Unit (Option String)
  | [] => .ok none
  | c :: rest =>
    let cookie := trimChars c
    if cookie.take (name.length + 1) = name ++ ['='] then
      match decodeURIComponent (String.mk (cookie.drop (name.length + 1))) with
      | none => .error ()
      | some v => .ok (some v)
    else findCookie name rest

/-- The `getCookie` helper shared by both files, on an explicit
`document.cookie` string.  `Except.ok none` is JS `null`; `Except.error ()`
is an uncaught `URIError` from `decodeURIComponent`. -/
def getCookie (documentCookie name : String) : Except Unit (Option String) :=
  if documentCookie = "" then .ok none
  else findCookie name.data (splitOnCh ';' documentCookie.data)

/-- Result of a fetch of event data: the parsed JSON array, or the error
object a rejected fetch / JSON parse produces. -/
inductive FetchResult (α ε : Type)
  | ok (data : α)
  | err (e : ε)
  deriving DecidableEq, Repr

/-- What the events closure hands to FullCalendar: `successCallback(data)`
or `failureCallback(error)`. -/
inductive EventsCallback (α ε : Type)
  | success (data : α)
  | failure (e : ε)
  deriving DecidableEq, Repr

/-- The response dispatch of both events closures:
`.then(data => successCallback(data))` passes the parsed response unchanged,
`.catch(error => failureCallback(error))` passes the error unchanged (after
a `console.error`). -/
def eventsDispatch {α ε : Type} : FetchResult α ε → EventsCallback α ε
  | .ok d => .success d
  | .err e => .failure e

/-- Remove an expected leading run of characters, returning the remainder. -/
def stripLead : List Char → List Char → Option (List Char)
  | [], l => some l
  | _ :: _, [] => none
  | p :: ps, c :: cs => if p = c then stripLead ps cs else none

/-- Split at the first occurrence of `sep`: the part before it and, when
`sep` occurs, the part after it. -/
def splitFirst (sep : Char) : List Char → List Char × Option (List Char)
  | [] => ([], none)
  | c :: cs =>
    if c = sep then ([], some cs)
    else
      let r := splitFirst sep cs
      (c :: r.1, r.2)

/-- Recover the `start` and `end` query parameters from a django events URL,
as the server's query-string parser would: everything between `?start=` and
the first `&`, then everything after the following `end=`. -/
def parseDjangoEventsUrl (url : String) : Option (String × String) :=
  (stripLead "/appointments/api/appointments/?start=".data url.data).bind fun rest =>
    (splitFirst '&' rest).2.bind fun r =>
      (stripLead "end=".data r).map fun e =>
        (String.mk (splitFirst '&' rest).1, String.mk e)

/-- Recover the `start`, `end` and `room_id` query parameters from a rooms
events URL. -/
def parseRoomsEventsUrl (url : String) : Option (String × String × String) :=
  (stripLead "/appointments/api/room-appointments/?start=".data url.data).bind fun rest =>
    (splitFirst '&' rest).2.bind fun r =>
      (stripLead "end=".data r).bind fun r2 =>
        (splitFirst '&' r2).2.bind fun r3 =>
          (stripLead "room_id=".data r3).map fun room =>
            (String.mk (splitFirst '&' rest).1, String.mk (splitFirst '&' r2).1,
              String.mk room)

/-- The four kinds of user-initiated structural change the spec's Mutation
Relay sentence enumerates, with the data each carries. -/
inductive StructuralChange
  | drop (appointmentId newStart : String)
  | resize (appointmentId newStart : String) (newEnd : Option String)
  | deleteAppt (appointmentId : String)
  | createClick (dateIso : String)
  deriving DecidableEq, Repr

/-- The request the django page relays for a structural change: drag and
resize POST to the update endpoint, the confirmed delete DELETEs; the create
flow (dateClick storing `window.clickedInfo`, then submitting the form with
no selected event) reaches the create branch of the submit handler, which
issues no fetch — delegated to `eventFormSubmit` so this is the source's
behaviour, not an assumption. -/
def relayRequest (c : StructuralChange) : Option Request :=
  match c with
  | .drop id ns => some (CalDjango.eventDropRequest id ns)
  | .resize id ns ne => some (CalDjango.eventResizeRequest id ns ne)
  | .deleteAppt id => CalDjango.deleteClick (some id) true
  | .createClick d => (CalDjango.eventFormSubmit none "" "" (some ⟨d, "calendar1"⟩)).1

/-- Response processing of a structural change on the django page.  For the
create flow (which issues no request) the synchronous effects of the create
branch stand in, and the pool is untouched. -/
def relayResponse (c : StructuralChange) (o : FetchOutcome) (pool : Pool) :
    Pool × List Effect :=
  match c with
  | .drop _ _ => CalDjango.eventDropResponse o pool
  | .resize _ _ _ => CalDjango.eventResizeResponse o pool
  | .deleteAppt _ => CalDjango.deleteResponse o pool
  | .createClick d => (pool, (CalDjango.eventFormSubmit none "" "" (some ⟨d, "calendar1"⟩)).2)

/-- A failed mutation: the server answered `success:false`, or the fetch /
JSON parse rejected. -/
def isFailureOutcome (o : FetchOutcome) : Prop :=
  o = .err ∨ ∃ msg, o = .ok false msg

/-- Claim C1 as stated: every structural change (create included) is relayed
as an update/delete request, and every failure outcome triggers
`info.revert()`. -/
def mutationRelayClaim : Prop :=
  ∀ c : StructuralChange,
    (relayRequest c).isSome ∧
      ∀ o pool, isFailureOutcome o → Effect.revert ∈ (relayResponse c o pool).2

/-- Claim C2 as stated: a date click followed by a form submission with no
existing event selected issues a request to a remote appointments endpoint. -/
def createRelayClaim : Prop :=
  ∀ (notes : String) (ci : CalDjango.ClickInfo),
    (CalDjango.eventFormSubmit none "" notes (some ci)).1.isSome

/-- Claim C3 as stated: every mutation relayed to the update endpoint (drag,
resize, modal edit, in either page) refetches every calendar instance on a
`success` response. -/
def refreshFanoutClaim : Prop :=
  ∀ (msg : String) (pool : Pool),
    (CalDjango.eventDropResponse (.ok true msg) pool).1 = refetchAllPool pool ∧
    (CalDjango.eventResizeResponse (.ok true msg) pool).1 = refetchAllPool pool ∧
    (CalDjango.eventFormSubmitResponse (.ok true msg) pool).1 = refetchAllPool pool ∧
    (CalRooms.eventDropResponse (.ok true msg) pool).1 = refetchAllPool pool ∧
    (CalRooms.eventResizeResponse (.ok true msg) pool).1 = refetchAllPool pool

/-- C1.  The claim quantifies `info.revert()` over all four kinds of
structural change, but the create flow is never relayed at all: the create
branch of the django submit handler issues no request (`relayRequest
(.createClick d) = none`), so the claim as stated fails. -/
theorem claim_C1_counterexample : ¬ mutationRelayClaim := by
  intro h
  have hc := (h (.createClick "2025-03-01T10:00:00Z")).1
  simp [relayRequest, CalDjango.eventFormSubmit] at hc

/-- C1 (amended): for move via drag and resize — in both pages — the handler
relays an update request and calls `info.revert()` whenever the server
answers `success:false` or the request fails, leaving the pool (and thus the
displayed event) unchanged; the confirmed delete relays a delete request but
performs no revert on failure, leaving the pool untouched (no visual change
preceded the response); a create via date click is not relayed as an update
or delete request. -/
theorem claim_C1_amended (o : FetchOutcome) (h : isFailureOutcome o) :
    ∀ (id ns d : String) (ne : Option String) (pool : Pool),
      (relayRequest (.drop id ns)).isSome ∧
      (relayRequest (.resize id ns ne)).isSome ∧
      (relayRequest (.deleteAppt id)).isSome ∧
      relayRequest (.createClick d) = none ∧
      Effect.revert ∈ (relayResponse (.drop id ns) o pool).2 ∧
      (relayResponse (.drop id ns) o pool).1 = pool ∧
      Effect.revert ∈ (relayResponse (.resize id ns ne) o pool).2 ∧
      (relayResponse (.resize id ns ne) o pool).1 = pool ∧
      Effect.revert ∈ (CalRooms.eventDropResponse o pool).2 ∧
      (CalRooms.eventDropResponse o pool).1 = pool ∧
      Effect.revert ∈ (CalRooms.eventResizeResponse o pool).2 ∧
      (CalRooms.eventResizeResponse o pool).1 = pool ∧
      (relayResponse (.deleteAppt id) o pool).1 = pool ∧
      Effect.revert ∉ (relayResponse (.deleteAppt id) o pool).2 := by
  intro id ns d ne pool
  rcases h with h | ⟨msg, h⟩ <;> subst h <;>
    simp [relayRequest, relayResponse, CalDjango.eventDropRequest,
      CalDjango.eventResizeRequest, CalDjango.deleteClick, CalDjango.deleteRequest,
      CalDjango.eventFormSubmit, CalDjango.eventDropResponse,
      CalDjango.eventResizeResponse, CalDjango.deleteResponse,
      CalRooms.eventDropResponse, CalRooms.eventResizeResponse]

/-- C1 witness: the amended theorem applied at a concrete failure outcome
and concrete handler data. -/
theorem claim_C1_witness :
    Effect.revert ∈
      (relayResponse (.drop "7" "2025-03-01T10:00:00Z") (.ok false "overlap")
        [("calendar1", ⟨0, 0⟩)]).2 :=
  (claim_C1_amended (.ok false "overlap") (Or.inr ⟨"overlap", rfl⟩)
    "7" "2025-03-01T10:00:00Z" "2025-03-02" none [("calendar1", ⟨0, 0⟩)]).2.2.2.2.1

/-- C2.  The claim as stated fails: submitting the form after a date click
with no existing event selected reaches the create branch, which issues no
request at all (it only alerts that the full creation form must be used). -/
theorem claim_C2_counterexample : ¬ createRelayClaim := by
  intro h
  have hc := h "laser session" ⟨"2025-03-01T10:00:00Z", "calendar1"⟩
  simp [CalDjango.eventFormSubmit] at hc

/-- C2 (amended): a create initiated via date click is not relayed to the
appointments API.  In the django page the submission with no selected event
issues no request, shows the alert directing to the full appointment
creation form and hides the modal; in the rooms page the date click itself
navigates the browser to `/appointments/create/` with the room id and the
clicked datetime as query parameters instead of calling the API. -/
theorem claim_C2_amended (notes : String) (ci : CalDjango.ClickInfo)
    (roomId dt : String) :
    CalDjango.eventFormSubmit none "" notes (some ci) =
      (none,
       [.alert "To create appointments, please use the full appointment creation form.",
        .hideModal]) ∧
    CalRooms.dateClick roomId dt =
      [.navigate ("/appointments/create/?room=" ++ roomId ++ "&start=" ++ dt)] :=
  ⟨rfl, rfl⟩

/-- C3.  The claim as stated fails on resize: the django `eventResize`
success handler only logs and the rooms one does nothing, so no calendar is
refetched after a successful resize. -/
theorem claim_C3_counterexample : ¬ refreshFanoutClaim := by
  intro h
  have hc := (h "" [("calendar1", ⟨0, 0⟩)]).2.1
  simp [CalDjango.eventResizeResponse, refetchAllPool, bumpRefetch] at hc

/-- C3 (amended): a `success` response to a move via drag (either page) or
to a modal edit refetches every calendar instance in the pool; a `success`
response to a resize triggers no refetch — the django handler only logs and
the rooms handler does nothing — and a successful delete also fans out. -/
theorem claim_C3_amended (msg : String) (pool : Pool) :
    (CalDjango.eventDropResponse (.ok true msg) pool).1 = refetchAllPool pool ∧
    (CalRooms.eventDropResponse (.ok true msg) pool).1 = refetchAllPool pool ∧
    (CalDjango.eventFormSubmitResponse (.ok true msg) pool).1 = refetchAllPool pool ∧
    (CalDjango.deleteResponse (.ok true msg) pool).1 = refetchAllPool pool ∧
    (CalRooms.deleteResponse (.ok true msg) pool).1 = refetchAllPool pool ∧
    (CalDjango.eventResizeResponse (.ok true msg) pool).1 = pool ∧
    (CalRooms.eventResizeResponse (.ok true msg) pool).1 = pool ∧
    (∀ p ∈ pool, (p.1, bumpRefetch p.2) ∈ refetchAllPool pool) := by
  refine ⟨rfl, rfl, rfl, rfl, rfl, rfl, rfl, fun p hp => ?_⟩
  exact List.mem_map_of_mem _ hp

/-- C3 witness: the amended theorem applied at a concrete message and pool. -/
theorem claim_C3_witness :
    (CalDjango.eventDropResponse (.ok true "ok") [("calendar1", ⟨0, 0⟩)]).1 =
      refetchAllPool [("calendar1", ⟨0, 0⟩)] :=
  (claim_C3_amended "ok" [("calendar1", ⟨0, 0⟩)]).1

/-- C7: the modal's edit submission and the drag and resize handlers of both
pages all POST to the identical URL
`/appointments/api/appointments/<id>/update/`. -/
theorem claim_C7 (id ns notes ev roomId : String) (ne : Option String)
    (h : id ≠ "") :
    ∃ req : Request,
      (CalDjango.eventFormSubmit (some ev) id notes none).1 = some req ∧
      req.method = "POST" ∧
      req.url = updateUrl id ∧
      (CalDjango.eventDropRequest id ns).url = updateUrl id ∧
      (CalDjango.eventDropRequest id ns).method = "POST" ∧
      (CalDjango.eventResizeRequest id ns ne).url = updateUrl id ∧
      (CalRooms.eventDropRequest id ns roomId).url = updateUrl id ∧
      (CalRooms.eventResizeRequest id ns ne).url = updateUrl id ∧
      updateUrl id = "/appointments/api/appointments/" ++ id ++ "/update/" := by
  refine ⟨⟨updateUrl id, "POST", [("notes", .jstr notes)]⟩, ?_, rfl, rfl, rfl, rfl, rfl,
    rfl, rfl, rfl⟩
  simp [CalDjango.eventFormSubmit, h]

/-- C7 witness: the theorem applied at a concrete appointment id. -/
theorem claim_C7_witness :
    ∃ req : Request,
      (CalDjango.eventFormSubmit (some "7") "7" "note" none).1 = some req ∧
      req.method = "POST" ∧
      req.url = updateUrl "7" ∧
      (CalDjango.eventDropRequest "7" "2025-03-01").url = updateUrl "7" ∧
      (CalDjango.eventDropRequest "7" "2025-03-01").method = "POST" ∧
      (CalDjango.eventResizeRequest "7" "2025-03-01" none).url = updateUrl "7" ∧
      (CalRooms.eventDropRequest "7" "2025-03-01" "2").url = updateUrl "7" ∧
      (CalRooms.eventResizeRequest "7" "2025-03-01" none).url = updateUrl "7" ∧
      updateUrl "7" = "/appointments/api/appointments/" ++ "7" ++ "/update/" :=
  claim_C7 "7" "2025-03-01" "note" "7" "2" none (by decide)

/-- C10: when a delete or a modal edit returns `success:false`, the handler
emits exactly one alert carrying the server's message: the pool (hence every
`refetchCount` and the calendars map) is unchanged and the modal is not
hidden. -/
theorem claim_C10 (msg : String) (pool : Pool) :
    CalDjango.deleteResponse (.ok false msg) pool = (pool, [.alert ("Error: " ++ msg)]) ∧
    CalDjango.eventFormSubmitResponse (.ok false msg) pool =
      (pool, [.alert ("Error: " ++ msg)]) ∧
    CalRooms.deleteResponse (.ok false msg) pool = (pool, [.alert ("Σφάλμα: " ++ msg)]) :=
  ⟨rfl, rfl, rfl⟩

/-- Setting a key absent from the pool appends the new entry. -/
lemma assocSet_append (pool : Pool) (k : String) (v : CalendarState)
    (h : ∀ p ∈ pool, p.1 ≠ k) : assocSet pool k v = pool ++ [(k, v)] := by
  have hany : pool.any (fun p => p.1 = k) = false := by
    rw [List.any_eq_false]
    intro p hp
    simpa using h p hp
  simp [assocSet, hany]

/-- Keys of the initialisation fold: one entry per configuration whose DOM
element exists, keyed by the configuration's identifier, appended after the
accumulator's entries.  Generic over the configuration type, so it covers
both `createCalendar` and `createRoomCalendar`. -/
lemma foldl_create_keys {α : Type} (key elt : α → String) (mk : α → CalendarState)
    (domHas : String → Bool) :
    ∀ (configs : List α) (pool : Pool),
      (∀ a ∈ configs, ∀ p ∈ pool, p.1 ≠ key a) →
      (configs.map key).Nodup →
      (configs.foldl
          (fun pl a => if domHas (elt a) then assocSet pl (key a) (mk a) else pl)
          pool).map Prod.fst =
        pool.map Prod.fst ++ (configs.filter (fun a => domHas (elt a))).map key := by
  intro configs
  induction configs with
  | nil => intro pool _ _; simp
  | cons a rest ih =>
    intro pool hdisj hnd
    rcases List.nodup_cons.mp hnd with ⟨hka, hndr⟩
    simp only [List.foldl_cons]
    by_cases hd : domHas (elt a)
    · rw [if_pos hd,
        assocSet_append _ _ _ (fun p hp => hdisj a (List.mem_cons_self a rest) p hp)]
      rw [ih (pool ++ [(key a, mk a)]) ?_ hndr]
      · simp [List.filter_cons, hd]
      · intro a2 ha2 p hp
        rcases List.mem_append.mp hp with hp | hp
        · exact hdisj a2 (List.mem_cons_of_mem a ha2) p hp
        · simp only [List.mem_singleton] at hp
          subst hp
          intro hcontra
          have heq : key a = key a2 := hcontra
          have h2 : key a2 ∈ rest.map key := List.mem_map_of_mem key ha2
          rw [← heq] at h2
          exact hka h2
    · rw [if_neg hd, ih pool (fun a2 ha2 => hdisj a2 (List.mem_cons_of_mem a ha2)) hndr]
      simp [List.filter_cons, hd]

/-- C4: after initialization the calendars map holds exactly one instance
per configuration whose DOM element exists, keyed by the configuration's
identifier (and with pairwise-distinct room ids in no particular duplicate),
and the bulk operations — the refetch fan-out and the rooms go-to-date —
visit every stored instance, none skipped. -/
theorem claim_C4 (domHas : String → Bool) (today d : Int)
    (rooms : List CalRooms.RoomConfig)
    (hnd : (rooms.map CalRooms.RoomConfig.id).Nodup) :
    (CalDjango.initCalendars domHas today).map Prod.fst =
      (CalDjango.calendarConfigs.filter
        (fun c => domHas c.elementId)).map CalDjango.CalendarConfig.id ∧
    (CalRooms.initRoomCalendars domHas d rooms).map Prod.fst =
      (rooms.filter (fun r => domHas r.elementId)).map CalRooms.RoomConfig.id ∧
    ((CalRooms.initRoomCalendars domHas d rooms).map Prod.fst).Nodup ∧
    ((CalDjango.initCalendars domHas today).map Prod.fst).Nodup ∧
    (∀ pool : Pool, ∀ p ∈ pool, (p.1, bumpRefetch p.2) ∈ refetchAllPool pool) ∧
    (∀ pool : Pool, ∀ p ∈ pool,
      (p.1, { p.2 with displayedDate := d }) ∈ CalRooms.gotoAll d pool) := by
  have hdj : (CalDjango.initCalendars domHas today).map Prod.fst =
      (CalDjango.calendarConfigs.filter
        (fun c => domHas c.elementId)).map CalDjango.CalendarConfig.id := by
    have := foldl_create_keys CalDjango.CalendarConfig.id CalDjango.CalendarConfig.elementId
      (fun a => ⟨today + a.dateOffset, 0⟩) domHas CalDjango.calendarConfigs []
      (by intro a _ p hp; cases hp) (by decide)
    simpa [CalDjango.initCalendars, CalDjango.createCalendar] using this
  have hrm : (CalRooms.initRoomCalendars domHas d rooms).map Prod.fst =
      (rooms.filter (fun r => domHas r.elementId)).map CalRooms.RoomConfig.id := by
    have := foldl_create_keys CalRooms.RoomConfig.id CalRooms.RoomConfig.elementId
      (fun _ => ⟨d, 0⟩) domHas rooms [] (by intro a _ p hp; cases hp) hnd
    simpa [CalRooms.initRoomCalendars, CalRooms.createRoomCalendar] using this
  refine ⟨hdj, hrm, ?_, ?_, ?_, ?_⟩
  · rw [hrm]
    exact ((List.filter_sublist rooms).map CalRooms.RoomConfig.id).nodup hnd
  · rw [hdj]
    exact ((List.filter_sublist CalDjango.calendarConfigs).map
      CalDjango.CalendarConfig.id).nodup (by decide)
  · intro pool p hp
    exact List.mem_map_of_mem _ hp
  · intro pool p hp
    exact List.mem_map_of_mem _ hp

/-- C4 witness: the theorem applied to two concrete rooms with distinct ids
and a DOM that has every element. -/
theorem claim_C4_witness :
    (CalRooms.initRoomCalendars (fun _ => true) 0
        [⟨"1", "Room A", "room-cal-1"⟩, ⟨"2", "Room B", "room-cal-2"⟩]).map Prod.fst =
      ([⟨"1", "Room A", "room-cal-1"⟩, ⟨"2", "Room B", "room-cal-2"⟩].filter
        (fun r => (fun _ => true) r.elementId)).map CalRooms.RoomConfig.id :=
  (claim_C4 (fun _ => true) 0 0
    [⟨"1", "Room A", "room-cal-1"⟩, ⟨"2", "Room B", "room-cal-2"⟩] (by decide)).2.1

/-- Claim C6 as stated, specialised to the django page it cites: pressing
sync realigns every calendar in the pool to one common date. -/
def syncCommonDateClaim : Prop :=
  ∀ today base : Int, ∃ d : Int,
    ∀ x ∈ displayedDates
      (CalDjango.syncToToday today (CalDjango.initCalendars (fun _ => true) base)), x = d

/-- C6.  The claim as stated fails on the django `Sync to Today` button: at
`today = 0` the four calendars end up on dates 0, 1, 2 and 3 — consecutive
days, not one common date. -/
theorem claim_C6_counterexample : ¬ syncCommonDateClaim := by
  intro h
  obtain ⟨d, hall⟩ := h 0 0
  have h0 : (0 : Int) = d := hall 0 (by decide)
  have h1 : (1 : Int) = d := hall 1 (by decide)
  omega

/-- C6 (amended): the django `Sync to Today` button re-aligns the calendars
to consecutive days starting from today (the i-th configured calendar shows
`today + i`), restoring the initial offsets rather than one common date; the
rooms `prev-day` / `next-day` / `today-btn` buttons do set every calendar in
the pool to the same date. -/
theorem claim_C6_amended (t base cd d : Int) (pool : Pool) :
    displayedDates (CalDjango.syncToToday t (CalDjango.initCalendars (fun _ => true) base)) =
      [t, t + 1, t + 2, t + 3] ∧
    (CalRooms.prevDay cd pool).2 = CalRooms.gotoAll (cd - 1) pool ∧
    (CalRooms.nextDay cd pool).2 = CalRooms.gotoAll (cd + 1) pool ∧
    (CalRooms.todayBtn d pool).2 = CalRooms.gotoAll d pool ∧
    (∀ p ∈ CalRooms.gotoAll d pool, p.2.displayedDate = d) := by
  refine ⟨?_, rfl, rfl, rfl, ?_⟩
  · have h : displayedDates
        (CalDjango.syncToToday t (CalDjango.initCalendars (fun _ => true) base)) =
        [t + 0, t + 1, t + 2, t + 3] := rfl
    rw [h]
    norm_num
  · intro p hp
    obtain ⟨q, _, rfl⟩ := List.mem_map.mp hp
    rfl

/-- C6 witness: the amended theorem applied at concrete dates and a concrete
pool. -/
theorem claim_C6_witness :
    displayedDates (CalDjango.syncToToday 5 (CalDjango.initCalendars (fun _ => true) 2)) =
      [5, 5 + 1, 5 + 2, 5 + 3] :=
  (claim_C6_amended 5 2 0 7 [("1", ⟨0, 0⟩)]).1

/-- C8: the auto-refresh interval is 300000 ms, and from any instant `t`
the next timer tick happens within one interval and refetches every calendar
instance in the pool — so, fetches succeeding, no displayed state outlives
the server's records by more than 5 minutes. -/
theorem claim_C8 (pool : Pool) (t : Nat) :
    autoRefreshIntervalMs = 300000 ∧
    ∃ k : Nat, 0 < k ∧ t < autoRefreshIntervalMs * k ∧
      autoRefreshIntervalMs * k ≤ t + autoRefreshIntervalMs ∧
      autoRefreshTick pool = refetchAllPool pool ∧
      ∀ p ∈ pool, (p.1, bumpRefetch p.2) ∈ autoRefreshTick pool := by
  refine ⟨rfl, t / 300000 + 1, by omega, ?_, ?_, rfl, ?_⟩
  · simp only [autoRefreshIntervalMs]
    omega
  · simp only [autoRefreshIntervalMs]
    omega
  · intro p hp
    exact List.mem_map_of_mem _ hp

/-- Stripping an expected leading run succeeds exactly on the remainder. -/
lemma stripLead_append (p r : List Char) : stripLead p (p ++ r) = some r := by
  induction p with
  | nil => rfl
  | cons c cs ih => simp [stripLead, ih]

/-- Splitting at the first `sep` after a `sep`-free block isolates it. -/
lemma splitFirst_append (sep : Char) (a b : List Char) (h : sep ∉ a) :
    splitFirst sep (a ++ sep :: b) = (a, some b) := by
  induction a with
  | nil => simp [splitFirst]
  | cons c cs ih =>
    simp only [List.mem_cons, not_or] at h
    have hcs : ¬c = sep := fun hq => h.1 hq.symm
    simp [splitFirst, hcs, ih h.2]

/-- Character data of the django events URL, in the shape the parser eats. -/
lemma eventsUrl_django_data (s e : String) :
    (CalDjango.eventsUrl s e).data =
      ("/appointments/api/appointments/?start=" : String).data ++
        (s.data ++ '&' :: (("end=" : String).data ++ e.data)) := by
  have hamp : ("&end=" : String).data = '&' :: ("end=" : String).data := rfl
  simp [CalDjango.eventsUrl, String.data_append, hamp]

/-- Character data of the rooms events URL, in the shape the parser eats. -/
lemma eventsUrl_rooms_data (s e room : String) :
    (CalRooms.eventsUrl s e room).data =
      ("/appointments/api/room-appointments/?start=" : String).data ++
        (s.data ++ '&' :: (("end=" : String).data ++
          (e.data ++ '&' :: (("room_id=" : String).data ++ room.data)))) := by
  have hamp : ("&end=" : String).data = '&' :: ("end=" : String).data := rfl
  have hroom : ("&room_id=" : String).data = '&' :: ("room_id=" : String).data := rfl
  simp [CalRooms.eventsUrl, String.data_append, hamp, hroom]

/-- C5: each widget's events closure issues a body-less GET whose query
string encodes exactly that widget's visible range — parsing the URL back
(as the server's query parser would) recovers the `start` and `end` the
widget supplied, and the room id for room widgets — and it hands the parsed
response to `successCallback` unchanged and any fetch or parse error to
`failureCallback` unchanged. -/
theorem claim_C5 (s e room : String) (hs : '&' ∉ s.data) (he : '&' ∉ e.data) :
    (CalDjango.eventsRequest s e).method = "GET" ∧
    (CalDjango.eventsRequest s e).body = [] ∧
    (CalRooms.eventsRequest s e room).method = "GET" ∧
    (CalRooms.eventsRequest s e room).body = [] ∧
    parseDjangoEventsUrl (CalDjango.eventsRequest s e).url = some (s, e) ∧
    parseRoomsEventsUrl (CalRooms.eventsRequest s e room).url = some (s, e, room) ∧
    (∀ (α ε : Type) (d : α),
      eventsDispatch (FetchResult.ok d : FetchResult α ε) = EventsCallback.success d) ∧
    (∀ (α ε : Type) (er : ε),
      eventsDispatch (FetchResult.err er : FetchResult α ε) = EventsCallback.failure er) := by
  refine ⟨rfl, rfl, rfl, rfl, ?_, ?_, fun _ _ _ => rfl, fun _ _ _ => rfl⟩
  · rw [show (CalDjango.eventsRequest s e).url = CalDjango.eventsUrl s e from rfl]
    simp only [parseDjangoEventsUrl, eventsUrl_django_data, stripLead_append,
      Option.some_bind]
    rw [splitFirst_append '&' s.data _ hs]
    simp only [Option.some_bind, stripLead_append, Option.map_some']
  · rw [show (CalRooms.eventsRequest s e room).url = CalRooms.eventsUrl s e room from rfl]
    simp only [parseRoomsEventsUrl, eventsUrl_rooms_data, stripLead_append,
      Option.some_bind]
    rw [splitFirst_append '&' s.data _ hs]
    simp only [Option.some_bind, stripLead_append]
    rw [splitFirst_append '&' e.data _ he]
    simp only [Option.some_bind, stripLead_append, Option.map_some']

/-- C5 witness: the theorem applied at a concrete range and room id. -/
theorem claim_C5_witness :
    parseDjangoEventsUrl
        (CalDjango.eventsRequest "2025-03-01T00:00:00" "2025-03-02T00:00:00").url =
      some ("2025-03-01T00:00:00", "2025-03-02T00:00:00") :=
  (claim_C5 "2025-03-01T00:00:00" "2025-03-02T00:00:00" "3" (by decide) (by decide)).2.2.2.2.1

/-- Claim C9's reading of `getCookie`, written from the claim's words for
comparison with the embedded code: take the semicolon-separated entries of
`document.cookie`; find the first whose trimmed text starts with
`name + '='`; return the URI-decoded remainder of that entry (throwing when
`decodeURIComponent` throws), and `null` when `document.cookie` is empty or
no entry matches. -/
def getCookieClaim (documentCookie name : String) : Except Unit (Option String) :=
  if documentCookie = "" then .ok none
  else
    match ((splitOnCh ';' documentCookie.data).map trimChars).find?
        (fun c => (name.data ++ ['=']).isPrefixOf c) with
    | none => .ok none
    | some entry =>
      match decodeURIComponent (String.mk (entry.drop (name.data.length + 1))) with
      | none => .error ()
      | some v => .ok (some v)

/-- The scanning loop of `getCookie` returns exactly what the first
prefix-matching trimmed entry decodes to. -/
lemma findCookie_eq (name : List Char) (l : List (List Char)) :
    findCookie name l =
      match (l.map trimChars).find? (fun c => (name ++ ['=']).isPrefixOf c) with
      | none => Except.ok none
      | some entry =>
        match decodeURIComponent (String.mk (entry.drop (name.length + 1))) with
        | none => Except.error ()
        | some v => Except.ok (some v) := by
  induction l with
  | nil => rfl
  | cons c rest ih =>
    have hiff : ((name ++ ['=']).isPrefixOf (trimChars c) = true) ↔
        ((trimChars c).take (name.length + 1) = name ++ ['=']) := by
      rw [List.isPrefixOf_iff_prefix, List.prefix_iff_eq_take]
      simp [eq_comm]
    by_cases hc : (trimChars c).take (name.length + 1) = name ++ ['=']
    · rw [List.map_cons, List.find?_cons_of_pos _ (hiff.mpr hc)]
      simp only [findCookie]
      rw [if_pos hc]
    · rw [List.map_cons, List.find?_cons_of_neg _ (fun hp => hc (hiff.mp hp))]
      simp only [findCookie]
      rw [if_neg hc, ih]

/-- C9.  The claim as stated says `getCookie` never throws, but the value of
the first matching entry is fed to `decodeURIComponent`, which throws a
`URIError` on a malformed escape: with `document.cookie = "csrftoken=%"`
the call `getCookie('csrftoken')` throws instead of returning. -/
theorem claim_C9_counterexample :
    ¬ ∀ dc name : String, ∃ r : Option String, getCookie dc name = Except.ok r := by
  intro h
  obtain ⟨r, hr⟩ := h "csrftoken=%" "csrftoken"
  have hthrow : getCookie "csrftoken=%" "csrftoken" = Except.error () := rfl
  rw [hthrow] at hr
  simp at hr

/-- C9 (amended): `getCookie` agrees everywhere with the claim's
description — first semicolon-separated entry whose trimmed text starts with
`name + '='`, URI-decoded value of exactly that entry, `null` on empty
cookie or no match — except that it can throw: it returns the thrown
`URIError` state precisely when the first matching entry's value is a
malformed URI escape sequence. -/
theorem claim_C9_amended (dc name : String) : getCookie dc name = getCookieClaim dc name := by
  unfold getCookie getCookieClaim
  by_cases hdc : dc = ""
  · rw [if_pos hdc, if_pos hdc]
  · rw [if_neg hdc, if_neg hdc, findCookie_eq]

/-- C8 witness: the theorem applied at a concrete pool and instant. -/
theorem claim_C8_witness :
    autoRefreshIntervalMs = 300000 ∧
    ∃ k : Nat, 0 < k ∧ 450000 < autoRefreshIntervalMs * k ∧
      autoRefreshIntervalMs * k ≤ 450000 + autoRefreshIntervalMs ∧
      autoRefreshTick [("calendar1", ⟨0, 0⟩)] = refetchAllPool [("calendar1", ⟨0, 0⟩)] ∧
      ∀ p ∈ ([("calendar1", ⟨0, 0⟩)] : Pool),
        (p.1, bumpRefetch p.2) ∈ autoRefreshTick [("calendar1", ⟨0, 0⟩)] :=
  claim_C8 [("calendar1", ⟨0, 0⟩)] 450000
